import Mathlib

/-!
# Verification of the sail_bot steering engine (src/bot.py)

A shallow embedding of the `Bot` controller from `src/bot.py`. Headings,
coordinates and timestamps are embedded as rationals (`ℚ`): every arithmetic
operation the controller performs on them is addition, subtraction,
multiplication by 10 and comparison, all exact on the decimal literals the
program uses. The wind-vector-to-heading conversion (`Bot.wind_heading`),
which calls `np.arctan2`, is embedded separately over `ℝ` using `Complex.arg`.

The external `vendeeglobe` types are embedded structurally: `Instructions`
as a record of optional heading, optional location and sail value;
`Location` as a pair (longitude, latitude) compared componentwise;
`Heading` as its underlying number (the object is always truthy in Python,
so the walrus test `if correction := self.catch_wind(...)` always takes the
branch).

`np.round(_, 1)` is embedded as `round1`: scale by 10, round half to even,
divide by 10.

The per-tick inputs of `Bot.run` that the core logic consumes are the time,
the position, the current heading, the wind-toward heading computed from the
forecast sample, and the outcome of `random.choice([135.0, 225.0])` inside
`unstick`, which is passed in as an explicit oracle value `choice`.
-/

namespace SailBot

-- The rational arithmetic operations are marked irreducible upstream, which
-- blocks `decide` on concrete states; restore default transparency for them
-- so that concrete program runs evaluate inside proofs.
set_option allowUnsafeReducibility true

attribute [local semireducible] Rat.add Rat.sub Rat.mul Rat.inv Rat.ofScientific

/-- The `Turn` enum of bot.py. -/
inductive Turn where
  | NO
  | RIGHT
  | LEFT
deriving DecidableEq, Repr

/-- One entry of the `NAV_LOCATIONS` list: a `Location(longitude, latitude)`,
a plain float heading, or the `None` sentinel marking voyage completion. -/
inductive NavEntry where
  | loc (longitude latitude : ℚ)
  | hdg (h : ℚ)
  | sentinel
deriving DecidableEq, Repr

/-- The `self.unstick_mode` dict once populated by `unstick`: keys
`"back"`, `"turn"` and `"time"`. The empty dict is `none` at the use sites. -/
structure UnstickMode where
  back : ℚ
  turn : ℚ
  time : ℚ
deriving DecidableEq, Repr

/-- The `vendeeglobe.Instructions` record as used by bot.py: an optional
heading, an optional target location `(longitude, latitude)`, and a sail
value. -/
structure Instructions where
  heading : Option ℚ
  location : Option (ℚ × ℚ)
  sail : ℚ
deriving DecidableEq, Repr

/-- The mutable state of `Bot` (the fields `__init__` sets that the control
logic reads or writes; `team`, `course_plan` and `actual_course` are never
consulted by the per-tick logic and are omitted). -/
structure BotState where
  intended_heading : ℚ
  tack_within_degrees : ℚ
  tack_time_hours : ℚ
  time_adjusted : Option ℚ
  last_turn : Turn
  tack : Bool
  coord_navigation : Bool
  current_nav_location : ℕ
  nav_location_reached : Bool
  previous_lat : ℚ
  previous_long : ℚ
  unstick_mode : Option UnstickMode
deriving DecidableEq, Repr

/-- `Bot.__init__`. -/
def init : BotState where
  intended_heading := 180.0
  tack_within_degrees := 45.0
  tack_time_hours := 6.0
  time_adjusted := none
  last_turn := Turn.NO
  tack := true
  coord_navigation := false
  current_nav_location := 0
  nav_location_reached := false
  previous_lat := 0.0
  previous_long := 0.0
  unstick_mode := none

/-- The `NAV_LOCATIONS` module constant of bot.py. -/
def NAV_LOCATIONS : List NavEntry := [
  .loc (-80.0) 9.6,
  .loc (-79.4) 8.7,
  .loc (-79.4) 6.5,
  .hdg 190.0,
  .loc 80.0 (-22.5),
  .hdg 120.0,
  .loc 55.0 14.0,
  .loc 43.7 12.2,
  .hdg 116.0,
  .loc 33.9 27.6,
  .hdg 120.0,
  .loc (-5.3) 36.0,
  .hdg 190.0,
  .loc (-1.8) 46.5,
  .sentinel]

-- The `NavLatitudes` float enum (the values are in fact longitudes).
namespace NavLatitudes

def AMERICAS : ℚ := -22.0
def CENTRAL_AMERICA : ℚ := -65.8
def OCEANIA_ONE : ℚ := -160.2
def SOUTH_AUSTRALIA : ℚ := 180.0
def SOUTH_WEST_AUSTRALIA : ℚ := 133.0
def INDIAN_OCEAN : ℚ := 100.0
def INDIAN_OCEAN_TWO : ℚ := 90.0
def ARABIAN_SEA : ℚ := 60.0
def RED_SEA : ℚ := 40.0
def RED_SEA_TWO : ℚ := 35.0
def MEDITTERANEAN : ℚ := 31.4
def MEDITTERANEAN_TWO : ℚ := 12.7
def MEDITTERANEAN_THREE : ℚ := 11.0
def MEDITTERANEAN_FOUR : ℚ := -3.9
def GIBRALTAR : ℚ := -6.2
def PORTUGAL : ℚ := -10.2
def FRANCE : ℚ := -9.9

end NavLatitudes

/-- `Bot.minus_wrap`: `a - b`, wrapped around to 360.0 at 0.0. -/
def minus_wrap (a b : ℚ) : ℚ :=
  if a - b < 0 then a - b + 360 else a - b

/-- `Bot.plus_wrap`: `a + b`, wrapped around at 360.0 (a sum of exactly 360
is left at 360). -/
def plus_wrap (a b : ℚ) : ℚ :=
  if a + b > 360 then a + b - 360 else a + b

/-- Round half to even, the rounding mode of `np.round`. -/
def roundHalfEven (x : ℚ) : ℤ :=
  if x - Int.floor x < 1/2 then Int.floor x
  else if 1/2 < x - Int.floor x then Int.floor x + 1
  else if Int.floor x % 2 = 0 then Int.floor x
  else Int.floor x + 1

/-- Rounding to one decimal place (`np.round(x, 1)`). -/
def round1 (x : ℚ) : ℚ := (roundHalfEven (10 * x) : ℚ) / 10

/-- `Bot.within_acceptable_deviation`. -/
def within_acceptable_deviation (s : BotState) (current_heading : ℚ) : Bool :=
  decide (minus_wrap s.intended_heading 45 < current_heading ∧
    current_heading < plus_wrap s.intended_heading 45)

/-- `Bot.should_turn`. -/
def should_turn (s : BotState)
    (wind_heading turn_above_heading turn_below_heading current_heading : ℚ) : Turn :=
  if wind_heading > turn_above_heading ∧ wind_heading < turn_below_heading ∧
      within_acceptable_deviation s current_heading = true then
    Turn.LEFT
  else if wind_heading < turn_above_heading ∧ wind_heading > turn_below_heading ∧
      current_heading ≠ s.intended_heading then
    Turn.RIGHT
  else
    Turn.NO

/-- The no-go cone bounds computed at the top of `Bot.catch_wind`:
`(turn_above_heading, turn_below_heading)`, with `turn_below_heading`
clamped to 360 when it falls below `turn_above_heading`. -/
def tack_bounds (s : BotState) : ℚ × ℚ :=
  let turn_below_heading :=
    plus_wrap (plus_wrap 180 s.intended_heading) s.tack_within_degrees
  let turn_above_heading :=
    minus_wrap (plus_wrap 180 s.intended_heading) s.tack_within_degrees
  (turn_above_heading,
    if turn_below_heading < turn_above_heading then 360 else turn_below_heading)

/-- The classification `Bot.catch_wind` obtains from `should_turn` at the
computed no-go cone bounds. -/
def catch_wind_turn (s : BotState) (current_heading wind_heading : ℚ) : Turn :=
  should_turn s wind_heading (tack_bounds s).1 (tack_bounds s).2 current_heading

/-- The dwell gate of `Bot.catch_wind`:
`not self.time_adjusted or (timestamp - self.tack_time_hours) > self.time_adjusted`.
Note that Python's `not` is a falsiness test, so a recorded time of exactly
`0.0` also re-arms the gate. -/
def timeGate (time_adjusted : Option ℚ) (tack_time_hours timestamp : ℚ) : Bool :=
  match time_adjusted with
  | none => true
  | some ta => decide (ta = 0) || decide (timestamp - tack_time_hours > ta)

/-- `Bot.catch_wind`: returns the updated state and the heading returned
(the Python code always returns a `Heading`, which is always truthy at the
call site in `run`). -/
def catch_wind (s : BotState) (current_heading wind_heading timestamp : ℚ) :
    BotState × ℚ :=
  if catch_wind_turn s current_heading wind_heading = Turn.LEFT ∧
      timeGate s.time_adjusted s.tack_time_hours timestamp = true then
    if s.last_turn = Turn.LEFT then
      ({ s with last_turn := Turn.RIGHT, time_adjusted := some timestamp },
        minus_wrap (plus_wrap s.intended_heading 45) 90)
    else
      ({ s with last_turn := Turn.LEFT, time_adjusted := some timestamp },
        plus_wrap s.intended_heading 45)
  else if catch_wind_turn s current_heading wind_heading = Turn.RIGHT ∧
      timeGate s.time_adjusted s.tack_time_hours timestamp = true then
    if s.last_turn = Turn.RIGHT then
      ({ s with last_turn := Turn.LEFT, time_adjusted := some timestamp },
        plus_wrap (minus_wrap s.intended_heading 45) 90)
    else
      ({ s with last_turn := Turn.RIGHT, time_adjusted := some timestamp },
        minus_wrap s.intended_heading 45)
  else
    ({ s with time_adjusted := none }, s.intended_heading)

/-- `Bot.unstick`: a no-op when `self.unstick_mode` is already populated;
otherwise disables tacking and freezes the escape heading
(`current_heading` minus the random choice of 135 or 225, wrapped), the
angled heading (`current_heading` minus 180 plus 90, wrapped) and the
trigger time. `choice` is the oracle for `random.choice([135.0, 225.0])`. -/
def unstick (s : BotState) (current_heading time choice : ℚ) : BotState :=
  match s.unstick_mode with
  | some _ => s
  | none =>
    { s with
        tack := false,
        unstick_mode := some
          { back := minus_wrap current_heading choice,
            turn := plus_wrap (minus_wrap current_heading 180) 90,
            time := time } }

/-- `Bot.coord_navigate`: returns the updated state, the updated
instructions, and the boolean the Python method returns (`true` to keep
coordinate-navigating this tick, `false` to resume heading navigation).
The reached test compares `Location(round(longitude,1), round(latitude,1))`
with the current entry componentwise (and is false against the `None`
sentinel, which is also "not a float"). -/
def coord_navigate (nav : List NavEntry) (s : BotState)
    (instructions : Instructions) (longitude latitude : ℚ) :
    BotState × Instructions × Bool :=
  let instructions := { instructions with heading := none }
  match nav.getD s.current_nav_location NavEntry.sentinel with
  | NavEntry.hdg h =>
    ({ s with
        nav_location_reached := false,
        coord_navigation := false,
        intended_heading := h },
      { instructions with location := none, heading := some h }, false)
  | NavEntry.loc lo la =>
    let instructions := { instructions with location := some (lo, la) }
    if s.nav_location_reached then
      ({ s with
          current_nav_location := s.current_nav_location + 1,
          nav_location_reached := false }, instructions, true)
    else
      ({ s with
          nav_location_reached :=
            decide (round1 longitude = lo ∧ round1 latitude = la) },
        instructions, true)
  | NavEntry.sentinel =>
    let instructions := { instructions with location := none }
    if s.nav_location_reached then
      ({ s with
          current_nav_location := s.current_nav_location + 1,
          nav_location_reached := false }, instructions, true)
    else
      ({ s with nav_location_reached := false }, instructions, true)

/-- `Bot.navigate`: the authored leg-transition table, keyed on the rounded
longitude and the current intended heading (the `lat` and `wind_heading`
parameters are accepted but never read, as in the source). -/
def navigate (s : BotState) (lat long wind_heading : ℚ) : BotState :=
  if long = NavLatitudes.AMERICAS ∧ s.intended_heading = 180.0 then
    { s with intended_heading := 220.0 }
  else if long = NavLatitudes.CENTRAL_AMERICA ∧ s.intended_heading = 220.0 then
    { s with intended_heading := 180.0, coord_navigation := true }
  else if long = NavLatitudes.OCEANIA_ONE ∧ s.intended_heading = 190.0 then
    { s with intended_heading := 250.0 }
  else if long = NavLatitudes.SOUTH_AUSTRALIA ∧ s.intended_heading = 250.0 then
    { s with intended_heading := 180.0 }
  else if long = NavLatitudes.SOUTH_WEST_AUSTRALIA ∧ s.intended_heading = 180.0 then
    { s with intended_heading := 130.0 }
  else if long = NavLatitudes.INDIAN_OCEAN ∧ s.intended_heading = 130.0 then
    { s with intended_heading := 180.0 }
  else if long = NavLatitudes.INDIAN_OCEAN_TWO ∧ s.intended_heading = 180.0 then
    { s with coord_navigation := true, current_nav_location := 4 }
  else if long = NavLatitudes.ARABIAN_SEA ∧ s.intended_heading = 120.0 then
    { s with coord_navigation := true, current_nav_location := 6 }
  else if long = NavLatitudes.RED_SEA ∧ s.intended_heading = 116.0 then
    { s with intended_heading := 120.0 }
  else if long = NavLatitudes.RED_SEA_TWO ∧ s.intended_heading = 120.0 then
    { s with coord_navigation := true, current_nav_location := 9 }
  else if long = NavLatitudes.MEDITTERANEAN ∧ s.intended_heading = 120.0 then
    { s with intended_heading := 170.0 }
  else if long = NavLatitudes.MEDITTERANEAN_TWO ∧ s.intended_heading = 170.0 then
    { s with intended_heading := 117.0 }
  else if long = NavLatitudes.MEDITTERANEAN_THREE ∧ s.intended_heading = 117.0 then
    { s with intended_heading := 187.0 }
  else if long = NavLatitudes.MEDITTERANEAN_FOUR ∧ s.intended_heading = 187.0 then
    { s with coord_navigation := true, current_nav_location := 11 }
  else if long = NavLatitudes.GIBRALTAR ∧ s.intended_heading = 190.0 then
    { s with intended_heading := 170.0 }
  else if long = NavLatitudes.PORTUGAL ∧ s.intended_heading = 170.0 then
    { s with intended_heading := 89.0 }
  else if long = NavLatitudes.FRANCE ∧ s.intended_heading = 89.0 then
    { s with coord_navigation := true, current_nav_location := 13 }
  else
    s

/-- The tail of `Bot.run` after the coordinate-navigation block: the
`catch_wind` correction when tacking is enabled, then `navigate` on the
rounded position. -/
def runTackNav (s : BotState) (instructions : Instructions)
    (t longitude latitude heading wind_heading : ℚ) : BotState × Instructions :=
  let p :=
    if s.tack then
      let c := catch_wind s heading wind_heading t
      (c.1, { instructions with heading := some c.2 })
    else
      (s, instructions)
  (navigate p.1 (round1 latitude) (round1 longitude) wind_heading, p.2)

/-- The part of `Bot.run` after the stuck-detection block: commit the
previous position, run `coord_navigate` when coordinate mode is active
(returning its instructions when it reports `true`), then fall through to
`catch_wind`/`navigate`. -/
def runNav (nav : List NavEntry) (s : BotState) (instructions : Instructions)
    (t longitude latitude heading wind_heading : ℚ) : BotState × Instructions :=
  let s := { s with previous_long := longitude, previous_lat := latitude }
  if s.coord_navigation then
    let r := coord_navigate nav s instructions longitude latitude
    if r.2.2 then (r.1, r.2.1)
    else runTackNav r.1 r.2.1 t longitude latitude heading wind_heading
  else
    runTackNav s instructions t longitude latitude heading wind_heading

/-- `Bot.run`, one tick: given the nav list, the state, the time `t`, the
position, the current heading, the wind-toward heading computed from the
forecast sample, and the `random.choice` oracle, produce the new state and
the emitted instructions. After `unstick` the mode is always populated; the
`getD` default is unreachable (Python indexes the dict directly). -/
def run (nav : List NavEntry) (s : BotState)
    (t longitude latitude heading wind_heading choice : ℚ) :
    BotState × Instructions :=
  if nav.getD s.current_nav_location NavEntry.sentinel = NavEntry.sentinel then
    (s, { heading := none, location := none, sail := 0 })
  else
    let instructions : Instructions :=
      { heading := some s.intended_heading, location := none, sail := 1 }
    if latitude = s.previous_lat ∧ longitude = s.previous_long then
      let s := unstick s heading (round1 t) choice
      let m := s.unstick_mode.getD { back := 0, turn := 0, time := 0 }
      if m.time < t ∧ t < m.time + 2 then
        (s, { instructions with heading := some m.back })
      else if m.time + 2 < t ∧ t < m.time + 4 then
        (s, { instructions with heading := some m.turn })
      else
        runNav nav { s with unstick_mode := none, tack := true } instructions
          t longitude latitude heading wind_heading
    else
      runNav nav s instructions t longitude latitude heading wind_heading

/-- One tick's worth of inputs to `Bot.run` as consumed by the embedded
logic. -/
structure TickInput where
  t : ℚ
  longitude : ℚ
  latitude : ℚ
  heading : ℚ
  wind : ℚ
  choice : ℚ
deriving DecidableEq, Repr

/-- Fold `run` over a list of ticks, keeping the final state. -/
def runTicks (nav : List NavEntry) (s : BotState) (ticks : List TickInput) :
    BotState :=
  ticks.foldl
    (fun st tk => (run nav st tk.t tk.longitude tk.latitude tk.heading tk.wind tk.choice).1)
    s

/-- `np.rad2deg(np.arctan2(vertical, horizontal))`, embedded over `ℝ`:
the argument of the complex number `horizontal + vertical * I` (which is
`atan2(vertical, horizontal)`, in `(-π, π]`), converted to degrees. -/
noncomputable def atan2deg (vertical horizontal : ℝ) : ℝ :=
  Complex.arg (Complex.ofReal horizontal + Complex.ofReal vertical * Complex.I) * (180 / Real.pi)

/-- `Bot.wind_heading`: fold the wind-vector angle into the compass heading
the wind is blowing toward. -/
noncomputable def wind_heading (horizontal vertical : ℝ) : ℝ :=
  let phi0 := atan2deg vertical horizontal
  let phi := if phi0 < 0 then -phi0 else phi0 + 180
  if phi = 0 then phi else 360 - phi

/-! ## Helper lemmas -/

theorem floor_le_roundHalfEven (x : ℚ) : Int.floor x ≤ roundHalfEven x := by
  unfold roundHalfEven
  split_ifs <;> omega

theorem lt_round1_add_two (t : ℚ) : t < round1 t + 2 := by
  have h1 : ((Int.floor (10 * t) : ℤ) : ℚ) ≤ ((roundHalfEven (10 * t) : ℤ) : ℚ) := by
    exact_mod_cast floor_le_roundHalfEven (10 * t)
  have h2 : (10 * t : ℚ) - 1 < ((Int.floor (10 * t) : ℤ) : ℚ) :=
    Int.sub_one_lt_floor (10 * t)
  unfold round1
  rw [show ((roundHalfEven (10 * t) : ℚ) / 10 + 2 : ℚ) =
      ((roundHalfEven (10 * t) : ℚ) + 20) / 10 by ring]
  rw [lt_div_iff₀ (by norm_num : (0:ℚ) < 10)]
  linarith

theorem catch_wind_unstick_mode (s : BotState) (ch wh t : ℚ) :
    (catch_wind s ch wh t).1.unstick_mode = s.unstick_mode := by
  unfold catch_wind
  split_ifs <;> simp

theorem catch_wind_tack (s : BotState) (ch wh t : ℚ) :
    (catch_wind s ch wh t).1.tack = s.tack := by
  unfold catch_wind
  split_ifs <;> simp

theorem catch_wind_nav_location (s : BotState) (ch wh t : ℚ) :
    (catch_wind s ch wh t).1.current_nav_location = s.current_nav_location := by
  unfold catch_wind
  split_ifs <;> simp

theorem navigate_unstick_mode (s : BotState) (lat long wh : ℚ) :
    (navigate s lat long wh).unstick_mode = s.unstick_mode := by
  unfold navigate
  simp only [apply_ite BotState.unstick_mode, ite_self]

theorem navigate_tack (s : BotState) (lat long wh : ℚ) :
    (navigate s lat long wh).tack = s.tack := by
  unfold navigate
  simp only [apply_ite BotState.tack, ite_self]

theorem coord_navigate_unstick_mode (nav : List NavEntry) (s : BotState)
    (instr : Instructions) (lo la : ℚ) :
    (coord_navigate nav s instr lo la).1.unstick_mode = s.unstick_mode := by
  unfold coord_navigate
  cases hE : nav.getD s.current_nav_location NavEntry.sentinel <;>
    simp [hE] <;> split_ifs <;> simp

theorem coord_navigate_tack (nav : List NavEntry) (s : BotState)
    (instr : Instructions) (lo la : ℚ) :
    (coord_navigate nav s instr lo la).1.tack = s.tack := by
  unfold coord_navigate
  cases hE : nav.getD s.current_nav_location NavEntry.sentinel <;>
    simp [hE] <;> split_ifs <;> simp

theorem coord_navigate_sail (nav : List NavEntry) (s : BotState)
    (instr : Instructions) (lo la : ℚ) :
    (coord_navigate nav s instr lo la).2.1.sail = instr.sail := by
  unfold coord_navigate
  cases hE : nav.getD s.current_nav_location NavEntry.sentinel <;>
    simp [hE] <;> split_ifs <;> simp

theorem runTackNav_unstick_mode (s : BotState) (instr : Instructions)
    (t lo la hd w : ℚ) :
    (runTackNav s instr t lo la hd w).1.unstick_mode = s.unstick_mode := by
  unfold runTackNav
  by_cases hs : s.tack = true <;>
    simp [hs, navigate_unstick_mode, catch_wind_unstick_mode]

theorem runTackNav_tack (s : BotState) (instr : Instructions)
    (t lo la hd w : ℚ) :
    (runTackNav s instr t lo la hd w).1.tack = s.tack := by
  unfold runTackNav
  by_cases hs : s.tack = true <;> simp [hs, navigate_tack, catch_wind_tack]

theorem runTackNav_sail (s : BotState) (instr : Instructions)
    (t lo la hd w : ℚ) :
    (runTackNav s instr t lo la hd w).2.sail = instr.sail := by
  unfold runTackNav
  by_cases hs : s.tack = true <;> simp [hs]

theorem runNav_unstick_mode (nav : List NavEntry) (s : BotState)
    (instr : Instructions) (t lo la hd w : ℚ) :
    (runNav nav s instr t lo la hd w).1.unstick_mode = s.unstick_mode := by
  unfold runNav
  by_cases hc : s.coord_navigation = true <;>
    simp [hc, runTackNav_unstick_mode] <;>
    split <;>
    simp [coord_navigate_unstick_mode, runTackNav_unstick_mode]

theorem runNav_tack (nav : List NavEntry) (s : BotState)
    (instr : Instructions) (t lo la hd w : ℚ) :
    (runNav nav s instr t lo la hd w).1.tack = s.tack := by
  unfold runNav
  by_cases hc : s.coord_navigation = true <;>
    simp [hc, runTackNav_tack] <;>
    split <;>
    simp [coord_navigate_tack, runTackNav_tack]

theorem runNav_sail (nav : List NavEntry) (s : BotState)
    (instr : Instructions) (t lo la hd w : ℚ) :
    (runNav nav s instr t lo la hd w).2.sail = instr.sail := by
  unfold runNav
  by_cases hc : s.coord_navigation = true <;>
    simp [hc, runTackNav_sail] <;>
    split <;>
    simp [coord_navigate_sail, runTackNav_sail]

/-! ## Claims -/

/-- Claim C1, counterexample: with intendedHeading = 180,
tackWithinDegrees = 45, current heading 180 and wind-toward heading 350
(the initial state), it is false that the no-go cone bounds evaluate to
aboveBound = 135 and belowBound = 225, that the classification is
Turn=None, and that the returned heading is 180 unchanged. -/
theorem c1_scenario_claim_false :
    ¬((tack_bounds init).1 = 135 ∧ (tack_bounds init).2 = 225 ∧
      catch_wind_turn init 180 350 = Turn.NO ∧
      (catch_wind init 180 350 10).2 = 180) := by
  decide

/-- Claim C1, amended: in the same scenario the bounds evaluate to
aboveBound = 315 and belowBound = 360 (the pre-clamp belowBound 45 is
clamped to 360), 350 lies strictly inside the band, the classification is
Turn=Left, and the call returns heading 225 = plus_wrap(180, 45), setting
last_turn = Left and time_adjusted to the timestamp. -/
theorem c1_scenario_nogo_cone :
    (tack_bounds init).1 = 315 ∧ (tack_bounds init).2 = 360 ∧
    (tack_bounds init).1 < 350 ∧ (350:ℚ) < (tack_bounds init).2 ∧
    catch_wind_turn init 180 350 = Turn.LEFT ∧
    catch_wind init 180 350 10 =
      ({ init with last_turn := Turn.LEFT, time_adjusted := some 10 }, 225) := by
  decide

/-- Claim C2, counterexample: three ticks at timestamps 10, 11, 12 (spaced
1 hour, less than tackDwellHours = 6), each classifying Turn=Left (wind 350,
current heading 180, intended 180), produce emitted headings 225, 180, 135:
the heading changes more than once, because the gate-rejected middle tick
clears time_adjusted and re-arms the gate for the third tick. -/
theorem c2_dwell_claim_false :
    (catch_wind_turn init 180 350 = Turn.LEFT ∧
      catch_wind_turn (catch_wind init 180 350 10).1 180 350 = Turn.LEFT ∧
      catch_wind_turn
        (catch_wind (catch_wind init 180 350 10).1 180 350 11).1 180 350 =
        Turn.LEFT) ∧
    (catch_wind init 180 350 10).2 = 225 ∧
    (catch_wind (catch_wind init 180 350 10).1 180 350 11).2 = 180 ∧
    (catch_wind
      (catch_wind (catch_wind init 180 350 10).1 180 350 11).1 180 350 12).2 =
      135 ∧
    (225:ℚ) ≠ 180 ∧ (180:ℚ) ≠ 135 := by
  decide

/-- Claim C2, amended: a tick whose dwell gate rejects emits the intended
heading unchanged and clears time_adjusted (re-arming immediately), so
same-side ticks spaced less than tackDwellHours apart can change the
emitted heading more than once; and any qualifying correction issued while
last_turn already equals the classified side — in particular a second
qualifying correction on the same side after the dwell period — takes the
90-degree tack branch and flips last_turn to the opposite side. -/
theorem c2_dwell_rearm_and_tack (s : BotState) (ch wh t1 t2 : ℚ)
    (hgate : timeGate s.time_adjusted s.tack_time_hours t1 = false) :
    (catch_wind s ch wh t1).2 = s.intended_heading ∧
    (catch_wind s ch wh t1).1 = { s with time_adjusted := none } ∧
    (catch_wind_turn s ch wh = Turn.LEFT → s.last_turn = Turn.LEFT →
      (catch_wind (catch_wind s ch wh t1).1 ch wh t2).2 =
        minus_wrap (plus_wrap s.intended_heading 45) 90 ∧
      (catch_wind (catch_wind s ch wh t1).1 ch wh t2).1.last_turn =
        Turn.RIGHT) ∧
    (catch_wind_turn s ch wh = Turn.RIGHT → s.last_turn = Turn.RIGHT →
      (catch_wind (catch_wind s ch wh t1).1 ch wh t2).2 =
        plus_wrap (minus_wrap s.intended_heading 45) 90 ∧
      (catch_wind (catch_wind s ch wh t1).1 ch wh t2).1.last_turn =
        Turn.LEFT) := by
  have hbase : catch_wind s ch wh t1 = ({ s with time_adjusted := none }, s.intended_heading) := by
    unfold catch_wind
    rw [if_neg (by simp [hgate]), if_neg (by simp [hgate])]
  have hturn : ∀ x y : Turn,
      catch_wind_turn { s with time_adjusted := none } ch wh = catch_wind_turn s ch wh := by
    intro _ _
    rfl
  refine ⟨by rw [hbase], by rw [hbase], ?_, ?_⟩
  · intro hcls hlast
    rw [hbase]
    unfold catch_wind
    rw [if_pos ⟨by rw [hturn Turn.NO Turn.NO, hcls], rfl⟩]
    rw [if_pos (by simpa using hlast)]
    exact ⟨rfl, rfl⟩
  · intro hcls hlast
    rw [hbase]
    unfold catch_wind
    rw [if_neg (by rw [hturn Turn.NO Turn.NO, hcls]; simp)]
    rw [if_pos ⟨by rw [hturn Turn.NO Turn.NO, hcls], rfl⟩]
    rw [if_pos (by simpa using hlast)]
    exact ⟨rfl, rfl⟩

/-- A state with a correction recorded at time 10 on the Left side, used to
witness the amended dwell-gate claim. -/
def c2state : BotState := { init with time_adjusted := some 10, last_turn := Turn.LEFT }

/-- Claim C2, witness for the amended theorem at a concrete input: state
with a correction recorded at time 10 and last_turn = Left, ticks at 11 and
12, wind 350, heading 180. -/
theorem c2_dwell_rearm_and_tack_witness :
    (timeGate c2state.time_adjusted c2state.tack_time_hours 11 = false) ∧
    ((catch_wind c2state 180 350 11).2 = c2state.intended_heading ∧
     (catch_wind c2state 180 350 11).1 = { c2state with time_adjusted := none } ∧
     (catch_wind_turn c2state 180 350 = Turn.LEFT → c2state.last_turn = Turn.LEFT →
       (catch_wind (catch_wind c2state 180 350 11).1 180 350 12).2 =
         minus_wrap (plus_wrap c2state.intended_heading 45) 90 ∧
       (catch_wind (catch_wind c2state 180 350 11).1 180 350 12).1.last_turn =
         Turn.RIGHT) ∧
     (catch_wind_turn c2state 180 350 = Turn.RIGHT → c2state.last_turn = Turn.RIGHT →
       (catch_wind (catch_wind c2state 180 350 11).1 180 350 12).2 =
         plus_wrap (minus_wrap c2state.intended_heading 45) 90 ∧
       (catch_wind (catch_wind c2state 180 350 11).1 180 350 12).1.last_turn =
         Turn.LEFT)) :=
  ⟨by decide, c2_dwell_rearm_and_tack c2state 180 350 11 12 (by decide)⟩

/-- Claim C3: when should_turn classifies Turn=Left at the computed no-go
bounds and the dwell gate passes, catch_wind returns
plus_wrap(intended_heading, 45); if last_turn was already Left it instead
returns that value minus 90 (wrapped) and sets last_turn = Right, otherwise
it sets last_turn = Left; in each case time_adjusted := timestamp. The
Turn=Right case is the symmetric mirror. -/
theorem c3_correction_branches (s : BotState) (ch wh t : ℚ)
    (hgate : timeGate s.time_adjusted s.tack_time_hours t = true) :
    (catch_wind_turn s ch wh = Turn.LEFT → s.last_turn = Turn.LEFT →
      catch_wind s ch wh t =
        ({ s with last_turn := Turn.RIGHT, time_adjusted := some t },
          minus_wrap (plus_wrap s.intended_heading 45) 90)) ∧
    (catch_wind_turn s ch wh = Turn.LEFT → s.last_turn ≠ Turn.LEFT →
      catch_wind s ch wh t =
        ({ s with last_turn := Turn.LEFT, time_adjusted := some t },
          plus_wrap s.intended_heading 45)) ∧
    (catch_wind_turn s ch wh = Turn.RIGHT → s.last_turn = Turn.RIGHT →
      catch_wind s ch wh t =
        ({ s with last_turn := Turn.LEFT, time_adjusted := some t },
          plus_wrap (minus_wrap s.intended_heading 45) 90)) ∧
    (catch_wind_turn s ch wh = Turn.RIGHT → s.last_turn ≠ Turn.RIGHT →
      catch_wind s ch wh t =
        ({ s with last_turn := Turn.RIGHT, time_adjusted := some t },
          minus_wrap s.intended_heading 45)) := by
  refine ⟨?_, ?_, ?_, ?_⟩ <;> intro hcls hlast <;> unfold catch_wind
  · rw [if_pos ⟨hcls, hgate⟩, if_pos hlast]
  · rw [if_pos ⟨hcls, hgate⟩, if_neg hlast]
  · rw [if_neg (by simp [hcls]), if_pos ⟨hcls, hgate⟩, if_pos hlast]
  · rw [if_neg (by simp [hcls]), if_pos ⟨hcls, hgate⟩, if_neg hlast]

/-- Claim C3, witness: the initial state (last_turn = No, gate open), wind
350, heading 180, timestamp 10: the non-tack Left branch applies. -/
theorem c3_correction_branches_witness :
    (timeGate init.time_adjusted init.tack_time_hours 10 = true) ∧
    (catch_wind_turn init 180 350 = Turn.LEFT) ∧
    init.last_turn ≠ Turn.LEFT ∧
    catch_wind init 180 350 10 =
      ({ init with last_turn := Turn.LEFT, time_adjusted := some 10 },
        plus_wrap init.intended_heading 45) :=
  ⟨by decide, by decide, by decide,
    (c3_correction_branches init 180 350 10 (by decide)).2.1 (by decide)
      (by decide)⟩

/-- Claim C4: for all a, b in [0, 360), minus_wrap(plus_wrap(a, b), b) = a.
The roundtrip holds at the exact 360-boundary case as well (a sum of
exactly 360 is left at 360 by plus_wrap, as the claim notes, and
minus_wrap(360, b) still recovers a); the exception the claim allows is
vacuous. -/
theorem c4_wrap_roundtrip (a b : ℚ) (ha0 : 0 ≤ a) (ha : a < 360)
    (hb0 : 0 ≤ b) (hb : b < 360) :
    minus_wrap (plus_wrap a b) b = a ∧ (a + b = 360 → plus_wrap a b = 360) := by
  constructor
  · unfold plus_wrap minus_wrap
    split_ifs <;> linarith
  · intro h360
    unfold plus_wrap
    split_ifs <;> linarith

/-- Claim C4, witness at the 360-boundary input a = 300, b = 60. -/
theorem c4_wrap_roundtrip_witness :
    (0:ℚ) ≤ 300 ∧ (300:ℚ) < 360 ∧ (0:ℚ) ≤ 60 ∧ (60:ℚ) < 360 ∧
    (minus_wrap (plus_wrap 300 60) 60 = 300 ∧
      ((300:ℚ) + 60 = 360 → plus_wrap 300 60 = 360)) :=
  ⟨by norm_num, by norm_num, by norm_num, by norm_num,
    c4_wrap_roundtrip 300 60 (by norm_num) (by norm_num) (by norm_num)
      (by norm_num)⟩

/-- Claim C9: when the nav entry at current_nav_location is the None
sentinel, run returns sail = 0 with no heading and no location, and leaves
the state unchanged. -/
theorem c9_none_sentinel (nav : List NavEntry) (s : BotState)
    (t longitude latitude heading wind choice : ℚ)
    (h : nav.getD s.current_nav_location NavEntry.sentinel =
      NavEntry.sentinel) :
    run nav s t longitude latitude heading wind choice =
      (s, { heading := none, location := none, sail := 0 }) := by
  unfold run
  rw [if_pos h]

/-- Claim C9, witness: the terminal index 14 of NAV_LOCATIONS holds the
sentinel. -/
theorem c9_none_sentinel_witness :
    (NAV_LOCATIONS.getD
      ({ init with current_nav_location := 14 } : BotState).current_nav_location
      NavEntry.sentinel = NavEntry.sentinel) ∧
    run NAV_LOCATIONS { init with current_nav_location := 14 } 3 10 20 90 45 135 =
      ({ init with current_nav_location := 14 },
        { heading := none, location := none, sail := 0 }) :=
  ⟨by decide,
    c9_none_sentinel NAV_LOCATIONS { init with current_nav_location := 14 }
      3 10 20 90 45 135 (by decide)⟩

/-- Claim C5: wind_heading returns a value in [0, 360) for every input
vector (h, v), and wind_heading(1, 0) = 180: atan2(0, 1) = 0 degrees, which
is not negative, so 180 is added and the result is 360 - 180 = 180. -/
theorem c5_wind_heading_range :
    (∀ h v : ℝ, 0 ≤ wind_heading h v ∧ wind_heading h v < 360) ∧
    wind_heading 1 0 = 180 := by
  have key : ∀ h v : ℝ, -180 < atan2deg v h ∧ atan2deg v h ≤ 180 := by
    intro h v
    have hpi := Real.pi_pos
    have h1 := Complex.neg_pi_lt_arg (Complex.ofReal h + Complex.ofReal v * Complex.I)
    have h2 := Complex.arg_le_pi (Complex.ofReal h + Complex.ofReal v * Complex.I)
    have hc : (0:ℝ) < 180 / Real.pi := by positivity
    have e1 : Real.pi * (180 / Real.pi) = 180 := by field_simp
    constructor
    · have t1 := mul_lt_mul_of_pos_right h1 hc
      unfold atan2deg
      nlinarith [t1, e1]
    · have t2 := mul_le_mul_of_nonneg_right h2 (le_of_lt hc)
      unfold atan2deg
      nlinarith [t2, e1]
  constructor
  · intro h v
    obtain ⟨hl, hr⟩ := key h v
    simp only [wind_heading]
    by_cases hneg : atan2deg v h < 0
    · rw [if_pos hneg]
      rw [if_neg (by intro h0; rw [neg_eq_zero] at h0; rw [h0] at hneg; exact lt_irrefl 0 hneg)]
      constructor <;> linarith
    · push_neg at hneg
      rw [if_neg (not_lt.mpr hneg)]
      rw [if_neg (by intro h0; linarith)]
      constructor <;> linarith
  · have hz : Complex.ofReal (1:ℝ) + Complex.ofReal (0:ℝ) * Complex.I = 1 := by
      simp
    have ha : atan2deg 0 1 = 0 := by
      unfold atan2deg
      rw [hz, Complex.arg_one, zero_mul]
    simp only [wind_heading, ha]
    norm_num

/-- Claim C6: in coordinate mode with a Location entry at the current
index, a non-matching tick (reached flag clear) leaves the index unchanged
and the flag clear; an exact-match tick sets the reached flag, leaves the
index unchanged and still instructs toward the entry; the next tick
consumes the flag, advancing the index by exactly one while the tick's
instruction still references the old entry; and when the current entry is
the float 120.0, coord_navigation becomes false, intended_heading becomes
120.0, a heading instruction of 120.0 is issued, and coord_navigate
returns false (resuming heading navigation). -/
theorem c6_coord_mode (nav : List NavEntry) (s : BotState)
    (instr : Instructions) (longitude latitude lo la : ℚ) :
    (nav.getD s.current_nav_location NavEntry.sentinel = NavEntry.loc lo la →
      s.nav_location_reached = false →
      ¬(round1 longitude = lo ∧ round1 latitude = la) →
      (coord_navigate nav s instr longitude latitude).1.current_nav_location =
          s.current_nav_location ∧
        (coord_navigate nav s instr longitude latitude).1.nav_location_reached =
          false ∧
        (coord_navigate nav s instr longitude latitude).2.2 = true) ∧
    (nav.getD s.current_nav_location NavEntry.sentinel = NavEntry.loc lo la →
      s.nav_location_reached = false →
      round1 longitude = lo → round1 latitude = la →
      (coord_navigate nav s instr longitude latitude).1.current_nav_location =
          s.current_nav_location ∧
        (coord_navigate nav s instr longitude latitude).1.nav_location_reached =
          true ∧
        (coord_navigate nav s instr longitude latitude).2.1.location =
          some (lo, la) ∧
        (coord_navigate nav s instr longitude latitude).2.2 = true) ∧
    (nav.getD s.current_nav_location NavEntry.sentinel = NavEntry.loc lo la →
      s.nav_location_reached = true →
      (coord_navigate nav s instr longitude latitude).1.current_nav_location =
          s.current_nav_location + 1 ∧
        (coord_navigate nav s instr longitude latitude).1.nav_location_reached =
          false ∧
        (coord_navigate nav s instr longitude latitude).2.1.location =
          some (lo, la) ∧
        (coord_navigate nav s instr longitude latitude).2.2 = true) ∧
    (nav.getD s.current_nav_location NavEntry.sentinel = NavEntry.hdg 120 →
      coord_navigate nav s instr longitude latitude =
        ({ s with
            nav_location_reached := false,
            coord_navigation := false,
            intended_heading := 120 },
          { instr with heading := some 120, location := none }, false)) := by
  refine ⟨?_, ?_, ?_, ?_⟩
  · intro hE hflag hmiss
    unfold coord_navigate
    rw [hE]
    simp [hflag, hmiss]
  · intro hE hflag hlo hla
    unfold coord_navigate
    rw [hE]
    simp [hflag, hlo, hla]
  · intro hE hflag
    unfold coord_navigate
    rw [hE]
    simp [hflag]
  · intro hE
    unfold coord_navigate
    rw [hE]

/-- A coordinate-mode state about to consume the reached flag at index 1. -/
def c6consume : BotState :=
  { init with
      coord_navigation := true,
      current_nav_location := 1,
      nav_location_reached := true }

/-- A coordinate-mode state whose current entry is the terminal float 120
(index 10 of NAV_LOCATIONS). -/
def c6terminal : BotState :=
  { init with coord_navigation := true, current_nav_location := 10 }

/-- The instructions record as initialized by run before navigation. -/
def instr0 : Instructions := { heading := some 180, location := none, sail := 1 }

/-- Claim C6, witness: consuming the reached flag at index 1 of
NAV_LOCATIONS advances to index 2 while still instructing toward entry 1;
and at index 10 (the float 120.0) coordinate mode exits with intended
heading 120 and a heading instruction of 120. -/
theorem c6_coord_mode_witness :
    (NAV_LOCATIONS.getD c6consume.current_nav_location NavEntry.sentinel =
      NavEntry.loc (-79.4) 8.7) ∧
    c6consume.nav_location_reached = true ∧
    ((coord_navigate NAV_LOCATIONS c6consume instr0 (-79.4) 8.7).1.current_nav_location =
        c6consume.current_nav_location + 1 ∧
      (coord_navigate NAV_LOCATIONS c6consume instr0 (-79.4) 8.7).1.nav_location_reached =
        false ∧
      (coord_navigate NAV_LOCATIONS c6consume instr0 (-79.4) 8.7).2.1.location =
        some (-79.4, 8.7) ∧
      (coord_navigate NAV_LOCATIONS c6consume instr0 (-79.4) 8.7).2.2 = true) ∧
    (NAV_LOCATIONS.getD c6terminal.current_nav_location NavEntry.sentinel =
      NavEntry.hdg 120) ∧
    coord_navigate NAV_LOCATIONS c6terminal instr0 0 0 =
      ({ c6terminal with
          nav_location_reached := false,
          coord_navigation := false,
          intended_heading := 120 },
        { instr0 with heading := some 120, location := none }, false) :=
  ⟨by decide, by decide,
    (c6_coord_mode NAV_LOCATIONS c6consume instr0 (-79.4) 8.7 (-79.4) 8.7).2.2.1
      (by decide) (by decide),
    by decide,
    (c6_coord_mode NAV_LOCATIONS c6terminal instr0 0 0 0 0).2.2.2 (by decide)⟩

/-- The eight ticks that drive the initial state to nav index 10 with
intended heading 120 and coordinate mode off: jump to index 4 at longitude
90, reach Location(80, -22.5), consume, exit at the float 120 (index 5),
jump to index 9 at longitude 35, reach Location(33.9, 27.6), consume, exit
at the float 120 (index 10). -/
def c7ticks : List TickInput := [
  ⟨1, 90, 10, 180, 90, 135⟩,
  ⟨2, 80, -22.5, 180, 90, 135⟩,
  ⟨3, 80, -22.4, 180, 90, 135⟩,
  ⟨4, 50, -22.4, 180, 90, 135⟩,
  ⟨5, 35, 20, 180, 90, 135⟩,
  ⟨6, 33.9, 27.6, 180, 90, 135⟩,
  ⟨7, 33.9, 27.5, 180, 90, 135⟩,
  ⟨8, 55, 27.5, 180, 90, 135⟩]

/-- Claim C7, counterexample: from the initial state, eight concrete ticks
reach current_nav_location = 10, and the ninth tick (longitude 60,
intended heading 120: the ARABIAN_SEA leg-table entry) sets
current_nav_location = 6, a decrease. -/
theorem c7_monotonicity_claim_false :
    (runTicks NAV_LOCATIONS init c7ticks).current_nav_location = 10 ∧
    (run NAV_LOCATIONS (runTicks NAV_LOCATIONS init c7ticks)
        9 60 25 180 90 135).1.current_nav_location = 6 ∧
    ¬(10 ≤ 6) := by
  decide

set_option maxHeartbeats 1600000 in
/-- Claim C7, amended: current_nav_location never decreases through
coord_navigate (it advances by at most one per tick); but the navigate
leg-transition table may assign it one of the fixed indices 4, 6, 9, 11 or
13, which can lie below its current value, so across whole ticks the index
is not monotone. -/
theorem c7_index_monotonicity :
    (∀ nav : List NavEntry, ∀ s : BotState, ∀ instr : Instructions, ∀ lo la : ℚ,
      s.current_nav_location ≤
        (coord_navigate nav s instr lo la).1.current_nav_location) ∧
    (∀ s : BotState, ∀ lat long wh : ℚ,
      (navigate s lat long wh).current_nav_location = s.current_nav_location ∨
      (navigate s lat long wh).current_nav_location = 4 ∨
      (navigate s lat long wh).current_nav_location = 6 ∨
      (navigate s lat long wh).current_nav_location = 9 ∨
      (navigate s lat long wh).current_nav_location = 11 ∨
      (navigate s lat long wh).current_nav_location = 13) := by
  constructor
  · intro nav s instr lo la
    unfold coord_navigate
    cases hE : nav.getD s.current_nav_location NavEntry.sentinel <;>
      simp [hE] <;> split_ifs <;> simp
  · intro s lat long wh
    unfold navigate
    by_cases h1 : long = NavLatitudes.AMERICAS ∧ s.intended_heading = 180.0
    · rw [if_pos h1]
      exact Or.inl rfl
    rw [if_neg h1]
    by_cases h2 : long = NavLatitudes.CENTRAL_AMERICA ∧ s.intended_heading = 220.0
    · rw [if_pos h2]
      exact Or.inl rfl
    rw [if_neg h2]
    by_cases h3 : long = NavLatitudes.OCEANIA_ONE ∧ s.intended_heading = 190.0
    · rw [if_pos h3]
      exact Or.inl rfl
    rw [if_neg h3]
    by_cases h4 : long = NavLatitudes.SOUTH_AUSTRALIA ∧ s.intended_heading = 250.0
    · rw [if_pos h4]
      exact Or.inl rfl
    rw [if_neg h4]
    by_cases h5 : long = NavLatitudes.SOUTH_WEST_AUSTRALIA ∧ s.intended_heading = 180.0
    · rw [if_pos h5]
      exact Or.inl rfl
    rw [if_neg h5]
    by_cases h6 : long = NavLatitudes.INDIAN_OCEAN ∧ s.intended_heading = 130.0
    · rw [if_pos h6]
      exact Or.inl rfl
    rw [if_neg h6]
    by_cases h7 : long = NavLatitudes.INDIAN_OCEAN_TWO ∧ s.intended_heading = 180.0
    · rw [if_pos h7]
      exact Or.inr (Or.inl rfl)
    rw [if_neg h7]
    by_cases h8 : long = NavLatitudes.ARABIAN_SEA ∧ s.intended_heading = 120.0
    · rw [if_pos h8]
      exact Or.inr (Or.inr (Or.inl rfl))
    rw [if_neg h8]
    by_cases h9 : long = NavLatitudes.RED_SEA ∧ s.intended_heading = 116.0
    · rw [if_pos h9]
      exact Or.inl rfl
    rw [if_neg h9]
    by_cases h10 : long = NavLatitudes.RED_SEA_TWO ∧ s.intended_heading = 120.0
    · rw [if_pos h10]
      exact Or.inr (Or.inr (Or.inr (Or.inl rfl)))
    rw [if_neg h10]
    by_cases h11 : long = NavLatitudes.MEDITTERANEAN ∧ s.intended_heading = 120.0
    · rw [if_pos h11]
      exact Or.inl rfl
    rw [if_neg h11]
    by_cases h12 : long = NavLatitudes.MEDITTERANEAN_TWO ∧ s.intended_heading = 170.0
    · rw [if_pos h12]
      exact Or.inl rfl
    rw [if_neg h12]
    by_cases h13 : long = NavLatitudes.MEDITTERANEAN_THREE ∧ s.intended_heading = 117.0
    · rw [if_pos h13]
      exact Or.inl rfl
    rw [if_neg h13]
    by_cases h14 : long = NavLatitudes.MEDITTERANEAN_FOUR ∧ s.intended_heading = 187.0
    · rw [if_pos h14]
      exact Or.inr (Or.inr (Or.inr (Or.inr (Or.inl rfl))))
    rw [if_neg h14]
    by_cases h15 : long = NavLatitudes.GIBRALTAR ∧ s.intended_heading = 190.0
    · rw [if_pos h15]
      exact Or.inl rfl
    rw [if_neg h15]
    by_cases h16 : long = NavLatitudes.PORTUGAL ∧ s.intended_heading = 170.0
    · rw [if_pos h16]
      exact Or.inl rfl
    rw [if_neg h16]
    by_cases h17 : long = NavLatitudes.FRANCE ∧ s.intended_heading = 89.0
    · rw [if_pos h17]
      exact Or.inr (Or.inr (Or.inr (Or.inr (Or.inr rfl))))
    rw [if_neg h17]
    exact Or.inl rfl

/-- A state whose recorded previous position is (5, 5), with recovery armed:
frozen escape heading 315, angled heading 0, trigger time 10, tacking
disabled. -/
def armedState : BotState :=
  { init with
      previous_lat := 5,
      previous_long := 5,
      tack := false,
      unstick_mode := some { back := 315, turn := 0, time := 10 } }

/-- A state whose recorded previous position is (5, 5), with no recovery in
progress. -/
def stuckGridState : BotState :=
  { init with previous_lat := 5, previous_long := 5 }

/-- Claim C8, counterexample: with tick times on the 0.1 grid the recovery
never engages. From a state whose previous position is (5, 5), a stuck tick
at t = 10 arms and immediately clears recovery (round(10, 1) = 10 makes the
first window test 10 > 10 fail), and the still-stuck tick at t = 10.1 —
inside the claimed escape window (10, 12) — emits the intended heading 180,
not the escape heading for either random choice (315 = 90 - 135 wrapped or
225 = 90 - 225 wrapped). -/
theorem c8_unstick_claim_false :
    ((run NAV_LOCATIONS stuckGridState 10 5 5 90 90 135).1.unstick_mode =
      none ∧
     (run NAV_LOCATIONS stuckGridState 10 5 5 90 90 135).1.tack = true) ∧
    (10:ℚ) < 10.1 ∧ (10.1:ℚ) < 10 + 2 ∧
    (run NAV_LOCATIONS
        (run NAV_LOCATIONS stuckGridState 10 5 5 90 90 135).1
        10.1 5 5 90 90 135).2.heading = some 180 ∧
    (180:ℚ) ≠ minus_wrap 90 135 ∧ (180:ℚ) ≠ minus_wrap 90 225 := by
  decide

/-- Claim C8, amended: the recovery trigger freezes round(t, 1), not t, and
the phase windows are measured from that rounded time; recovery only arms
effectively when round(t, 1) < t (on a stuck tick with round(t, 1) = t the
else branch clears the state at once, as the counterexample shows). On a
stuck tick: with no recovery in progress and round(t, 1) < t, arming emits
the escape heading (heading minus the random choice of 135 or 225, wrapped)
with sail 1 and tacking disabled; with recovery frozen at m, a tick in the
open window (m.time, m.time + 2) emits m.back and leaves the state
untouched; in (m.time + 2, m.time + 4) it emits m.turn; and at or past
m.time + 4 the recovery state is cleared and tacking re-enabled, with sail
still 1. -/
theorem c8_unstick_phases (nav : List NavEntry) (s : BotState)
    (t longitude latitude heading wind choice : ℚ) (m : UnstickMode)
    (hnav : nav.getD s.current_nav_location NavEntry.sentinel ≠
      NavEntry.sentinel)
    (hlat : latitude = s.previous_lat) (hlong : longitude = s.previous_long) :
    (s.unstick_mode = none → round1 t < t →
      run nav s t longitude latitude heading wind choice =
        ({ s with
            tack := false,
            unstick_mode := some
              { back := minus_wrap heading choice,
                turn := plus_wrap (minus_wrap heading 180) 90,
                time := round1 t } },
          { heading := some (minus_wrap heading choice), location := none,
            sail := 1 })) ∧
    (s.unstick_mode = some m → m.time < t → t < m.time + 2 →
      run nav s t longitude latitude heading wind choice =
        (s, { heading := some m.back, location := none, sail := 1 })) ∧
    (s.unstick_mode = some m → m.time + 2 < t → t < m.time + 4 →
      run nav s t longitude latitude heading wind choice =
        (s, { heading := some m.turn, location := none, sail := 1 })) ∧
    (s.unstick_mode = some m → m.time + 4 ≤ t →
      (run nav s t longitude latitude heading wind choice).1.unstick_mode =
          none ∧
        (run nav s t longitude latitude heading wind choice).1.tack = true ∧
        (run nav s t longitude latitude heading wind choice).2.sail = 1) := by
  rw [List.getD_eq_getElem?_getD] at hnav
  refine ⟨?_, ?_, ?_, ?_⟩
  · intro hm ht
    simp [run, unstick, hm, hlat, hlong, hnav, ht, lt_round1_add_two]
  · intro hm hw1 hw2
    simp [run, unstick, hm, hlat, hlong, hnav, hw1, hw2]
  · intro hm hw1 hw2
    have hn1 : ¬(t < m.time + 2) := by linarith
    simp [run, unstick, hm, hlat, hlong, hnav, hn1, hw1, hw2]
  · intro hm hw
    have hn1 : ¬(t < m.time + 2) := by linarith
    have hn2 : ¬(t < m.time + 4) := by linarith
    simp [run, unstick, hm, hlat, hlong, hnav, hn1, hn2,
      runNav_unstick_mode, runNav_tack, runNav_sail]

/-- Claim C8, witness for the amended theorem: the armed state (escape 315,
trigger time 10) at the still-stuck tick t = 10.5, inside the first window,
emits heading 315 with sail 1 and leaves the state unchanged. -/
theorem c8_unstick_phases_witness :
    (NAV_LOCATIONS.getD armedState.current_nav_location NavEntry.sentinel ≠
      NavEntry.sentinel) ∧
    ((5:ℚ) = armedState.previous_lat) ∧ ((5:ℚ) = armedState.previous_long) ∧
    armedState.unstick_mode = some { back := 315, turn := 0, time := 10 } ∧
    ((10:ℚ) < 10.5) ∧ ((10.5:ℚ) < 10 + 2) ∧
    run NAV_LOCATIONS armedState 10.5 5 5 90 90 135 =
      (armedState, { heading := some 315, location := none, sail := 1 }) :=
  ⟨by decide, by decide, by decide, by decide, by decide, by decide,
    (c8_unstick_phases NAV_LOCATIONS armedState 10.5 5 5 90 90 135
        { back := 315, turn := 0, time := 10 }
        (by decide) (by decide) (by decide)).2.1
      (by decide) (by decide) (by decide)⟩

/-- Claim C10: once unstick has disabled tacking (the recovery mode is
frozen at m), a tick re-enables tacking exactly when its position equals
the recorded previous position and its time lies outside both open recovery
windows (m.time, m.time + 2) and (m.time + 2, m.time + 4); in particular,
if the position changes, tacking stays disabled on that tick. -/
theorem c10_tack_reenable (nav : List NavEntry) (s : BotState)
    (t longitude latitude heading wind choice : ℚ) (m : UnstickMode)
    (hnav : nav.getD s.current_nav_location NavEntry.sentinel ≠
      NavEntry.sentinel)
    (htack : s.tack = false) (hm : s.unstick_mode = some m) :
    (run nav s t longitude latitude heading wind choice).1.tack = true ↔
      ((latitude = s.previous_lat ∧ longitude = s.previous_long) ∧
        ¬(m.time < t ∧ t < m.time + 2) ∧ ¬(m.time + 2 < t ∧ t < m.time + 4)) := by
  rw [List.getD_eq_getElem?_getD] at hnav
  by_cases hstuck : latitude = s.previous_lat ∧ longitude = s.previous_long
  · by_cases w1 : m.time < t ∧ t < m.time + 2
    · simp [run, unstick, hm, hstuck.1, hstuck.2, hnav, w1, htack]
    · by_cases w2 : m.time + 2 < t ∧ t < m.time + 4
      · simp [run, unstick, hm, hstuck.1, hstuck.2, hnav, w1, w2, htack]
      · simp [run, unstick, hm, hstuck.1, hstuck.2, hnav, w1, w2, htack,
          runNav_tack]
  · simp [run, hstuck, hnav, htack, runNav_tack]

/-- Claim C10, witness: the armed state (trigger time 10), still stuck at
t = 20 (outside both windows), re-enables tacking; the iff instantiates to
a true biconditional. -/
theorem c10_tack_reenable_witness :
    (NAV_LOCATIONS.getD armedState.current_nav_location NavEntry.sentinel ≠
      NavEntry.sentinel) ∧
    armedState.tack = false ∧
    armedState.unstick_mode = some { back := 315, turn := 0, time := 10 } ∧
    ((run NAV_LOCATIONS armedState 20 5 5 90 90 135).1.tack = true ↔
      (((5:ℚ) = armedState.previous_lat ∧ (5:ℚ) = armedState.previous_long) ∧
        ¬((10:ℚ) < 20 ∧ (20:ℚ) < 10 + 2) ∧
        ¬((10:ℚ) + 2 < 20 ∧ (20:ℚ) < 10 + 4))) :=
  ⟨by decide, by decide, by decide,
    c10_tack_reenable NAV_LOCATIONS armedState 20 5 5 90 90 135
      { back := 315, turn := 0, time := 10 }
      (by decide) (by decide) (by decide)⟩

end SailBot
